import Mathlib

/-
  Verification development for the spotify-sync repository.

  The repository consists of two design documents
  (src/docs/proj_description.md, src/prototyping/frontend_integration_guide.md)
  and one frontend prototype (src/prototyping/frontend_prototype.tsx).
  The backend Synchronization Coordinator (SyncEngine / SessionManager) is not
  implemented in the repository: the documents contain only pseudocode sketches
  and prose for it, so those components are modelled from the spec below,
  while the frontend prototype's real code (SyncService.handleSyncCommand,
  SyncService.stopSync, SessionService) is embedded directly from the source.
-/

namespace SpotifySync

/-- PlaybackSnapshot from the spec data model: trackId, positionMs, isPlaying,
and the clock time reportedAtMs at which the snapshot was captured.
Millisecond quantities are embedded as Int. -/
structure PlaybackSnapshot where
  trackId : String
  positionMs : Int
  isPlaying : Bool
  reportedAtMs : Int
deriving Repr, DecidableEq

/-- The correction actions of the sync_command protocol message:
play, pause, seek, switch_track. -/
inductive Action where
  | play
  | pause
  | seek
  | switchTrack
deriving Repr, DecidableEq

/-- Correction output of the SyncEngine: an action plus target state. -/
structure Correction where
  action : Action
  trackId : String
  positionMs : Int
  emittedAtMs : Int
deriving Repr, DecidableEq

/-- The three drift bands of the graded threshold policy: below 500 ms no
action is needed, between 500 ms and 3000 ms a gradual correction, at or
above 3000 ms an immediate seek. -/
inductive DriftBand where
  | noAction
  | gradual
  | immediate
deriving Repr, DecidableEq

/-- Modelled from the spec: the backend SyncEngine is missing from the
repository sources. Host-position projection, step 3 of the evaluate
algorithm: `expectedHostPos = hostSnapshot.positionMs +
(now - hostSnapshot.reportedAtMs)`, but only while `hostSnapshot.isPlaying`;
if the host is paused the position is not projected forward. -/
def expectedHostPos (h : PlaybackSnapshot) (now : Int) : Int :=
  if h.isPlaying then h.positionMs + (now - h.reportedAtMs) else h.positionMs

/-- Modelled from the spec: the backend SyncEngine is missing from the
repository sources. Step 4 of the evaluate algorithm:
`targetClientPos = expectedHostPos + clientOffsetMs`. -/
def targetClientPos (h : PlaybackSnapshot) (clientOffsetMs now : Int) : Int :=
  expectedHostPos h now + clientOffsetMs

/-- Modelled from the spec: the backend SyncEngine is missing from the
repository sources. Step 5 of the evaluate algorithm:
`driftMs = clientSnapshot.positionMs - targetClientPos`
(positive means the client is ahead). -/
def driftMs (h c : PlaybackSnapshot) (clientOffsetMs now : Int) : Int :=
  c.positionMs - targetClientPos h clientOffsetMs now

/-- Modelled from the spec: the backend SyncEngine is missing from the
repository sources. Step 6 of the evaluate algorithm, the graded
classification of the drift magnitude with band boundaries 500 and 3000 ms. -/
def classifyDrift (d : Int) : DriftBand :=
  if d.natAbs < 500 then .noAction
  else if d.natAbs < 3000 then .gradual
  else .immediate

/-- Modelled from the spec: the backend SyncEngine is missing from the
repository sources. The evaluate decision function of spec section 4.1:
absent snapshots yield no correction; track mismatch overrides everything and
emits switch_track; play-state mismatch overrides position drift and emits
play or pause matching the host; otherwise the drift band decides between no
action and a seek to targetClientPos. -/
def evaluate (host client : Option PlaybackSnapshot)
    (clientOffsetMs now : Int) : Option Correction :=
  match host, client with
  | none, _ => none
  | some _, none => none
  | some h, some c =>
    if h.trackId ≠ c.trackId then
      some ⟨.switchTrack, h.trackId, targetClientPos h clientOffsetMs now, now⟩
    else if h.isPlaying ≠ c.isPlaying then
      some ⟨if h.isPlaying then .play else .pause, h.trackId,
            targetClientPos h clientOffsetMs now, now⟩
    else
      match classifyDrift (driftMs h c clientOffsetMs now) with
      | .noAction => none
      | .gradual =>
          some ⟨.seek, h.trackId, targetClientPos h clientOffsetMs now, now⟩
      | .immediate =>
          some ⟨.seek, h.trackId, targetClientPos h clientOffsetMs now, now⟩

/-- State reported by a peer in the documented pseudocode of the backend
sync logic (src/prototyping/frontend_integration_guide.md): trackUri,
position, and the timestamp at which the state was captured. -/
structure ReportedState where
  trackUri : String
  position : Int
  timestamp : Int
deriving Repr, DecidableEq

/-- A sync_command payload as produced by the documented backend pseudocode:
action, trackUri, position, timestamp. -/
structure PseudoSyncCommand where
  action : Action
  trackUri : String
  position : Int
  timestamp : Int
deriving Repr, DecidableEq

/-- calculateSyncCommand, the backend pseudocode sketch of
src/prototyping/frontend_integration_guide.md (section Backend Sync Logic):
projects the host position forward unconditionally, adds the client offset,
and issues a seek when the absolute drift exceeds 1000 ms. The internal call
to Date.now() is embedded as the explicit parameter now. -/
def calculateSyncCommand (hostState clientState : ReportedState)
    (clientOffset now : Int) : Option PseudoSyncCommand :=
  let timeSinceHostReport := now - hostState.timestamp
  let expectedHostPosition := hostState.position + timeSinceHostReport
  let targetClientPosition := expectedHostPosition + clientOffset
  let drift := clientState.position - targetClientPosition
  if 1000 < drift.natAbs then
    some ⟨.seek, hostState.trackUri, targetClientPosition, now⟩
  else
    none

/-- calculateDrift, the pseudocode sketch of src/docs/proj_description.md
(section Drift Calculation): the half round-trip networkLatency measured by
measureRoundTripTime() / 2 and the internal Date.now() are embedded as the
explicit parameters networkLatency and now. -/
def calculateDrift (hostState clientState : ReportedState)
    (userOffset networkLatency now : Int) : Int :=
  let timeSinceHostReport := now - hostState.timestamp
  let expectedHostPosition := hostState.position + timeSinceHostReport
  let expectedClientPosition := expectedHostPosition + userOffset + networkLatency
  clientState.position - expectedClientPosition

/-- Modelled from the spec: the backend SessionManager is missing from the
repository sources. The sync-relevant part of the Session aggregate:
the two peer snapshots and the client-controlled manual offset. -/
structure Session where
  hostSnapshot : Option PlaybackSnapshot
  clientSnapshot : Option PlaybackSnapshot
  clientOffsetMs : Int
deriving Repr, DecidableEq

/-- Modelled from the spec: the backend SessionManager is missing from the
repository sources. Clamping of a requested offset into the documented
manual micro-adjustment range of -5000 to 5000 ms. -/
def clampOffset (offsetMs : Int) : Int :=
  max (-5000) (min 5000 offsetMs)

/-- Modelled from the spec: the backend SessionManager is missing from the
repository sources (SessionService.updateOffset in the prototype is a stub
that only logs). updateOffset clamps the requested offset into
the range -5000 to 5000 ms and stores it on the session. -/
def updateOffset (s : Session) (offsetMs : Int) : Session :=
  ⟨s.hostSnapshot, s.clientSnapshot, clampOffset offsetMs⟩

/-- Modelled from the spec: the backend SessionManager is missing from the
repository sources. The immediate re-evaluation a SessionManager operation
triggers: SyncEngine.evaluate on the session's snapshots and stored offset. -/
def reevaluate (s : Session) (now : Int) : Option Correction :=
  evaluate s.hostSnapshot s.clientSnapshot s.clientOffsetMs now

/-- A call into SpotifyService as made by the prototype's sync client:
play(trackUri), pause(), or seek(positionMs)
(src/prototyping/frontend_prototype.tsx, class SpotifyService). -/
inductive SpotifyCall where
  | play (trackUri : String)
  | pause
  | seek (positionMs : Int)
deriving Repr, DecidableEq

/-- The destructured fields of a received sync_command message as used by
SyncService.handleSyncCommand: action, trackUri, position. The action is the
raw string from the wire. -/
structure SyncCommandMsg where
  action : String
  trackUri : String
  position : Int
deriving Repr, DecidableEq

/-- SyncService.handleSyncCommand from src/prototyping/frontend_prototype.tsx
(lines 184-199), embedded as the sequence of SpotifyService calls it makes:
the switch over action dispatches play to play(trackUri) then seek(position),
pause to pause(), seek to seek(position), and has no default case, so any
other action falls through and makes no call. -/
def handleSyncCommand (command : SyncCommandMsg) : List SpotifyCall :=
  if command.action = "play" then
    [.play command.trackUri, .seek command.position]
  else if command.action = "pause" then
    [.pause]
  else if command.action = "seek" then
    [.seek command.position]
  else
    []

/-- The client-side playback state that SpotifyService calls act on:
current track, position, and playing flag. -/
structure ClientPlayback where
  trackUri : String
  positionMs : Int
  isPlaying : Bool
deriving Repr, DecidableEq

/-- Effect of one SpotifyService call on the client playback state:
play(t) starts track t playing, pause() stops playback, seek(p) moves the
position to p. -/
def applyCall (st : ClientPlayback) : SpotifyCall → ClientPlayback
  | .play t => ⟨t, st.positionMs, true⟩
  | .pause => ⟨st.trackUri, st.positionMs, false⟩
  | .seek p => ⟨st.trackUri, p, st.isPlaying⟩

/-- Effect of a sequence of SpotifyService calls, applied left to right. -/
def applyCalls (st : ClientPlayback) (calls : List SpotifyCall) : ClientPlayback :=
  calls.foldl applyCall st

/-- State of the prototype's SyncService relevant to its timer handling:
the syncInterval field (null or a timer handle) and the set of interval
timers currently registered with the runtime, modelled as a list of handles. -/
structure SyncServiceState where
  syncInterval : Option Nat
  scheduled : List Nat
deriving Repr, DecidableEq

/-- SyncService.startHostSync from src/prototyping/frontend_prototype.tsx
(lines 149-158): setInterval registers a fresh timer handle with the runtime
and the handle is stored in syncInterval. -/
def startHostSync (s : SyncServiceState) (newHandle : Nat) : SyncServiceState :=
  ⟨some newHandle, newHandle :: s.scheduled⟩

/-- SyncService.stopSync from src/prototyping/frontend_prototype.tsx
(lines 160-165): if syncInterval is non-null, clearInterval deregisters the
handle and the field is set to null; otherwise nothing happens. -/
def stopSync (s : SyncServiceState) : SyncServiceState :=
  match s.syncInterval with
  | some handle => ⟨none, s.scheduled.filter (fun i => i != handle)⟩
  | none => s

/-- C1: for host and client snapshots on the same track with matching play
state, the sync evaluation classifies the absolute drift into exactly three
bands: below 500 ms no correction, from 500 ms up to but excluding 3000 ms a
gradual correction (a seek to targetClientPos), and at or above 3000 ms an
immediate seek to targetClientPos. -/
theorem C1_drift_band_policy (h c : PlaybackSnapshot) (o now : Int)
    (htrack : h.trackId = c.trackId) (hplay : h.isPlaying = c.isPlaying) :
    ((driftMs h c o now).natAbs < 500 →
        evaluate (some h) (some c) o now = none) ∧
    (500 ≤ (driftMs h c o now).natAbs → (driftMs h c o now).natAbs < 3000 →
        classifyDrift (driftMs h c o now) = .gradual ∧
        evaluate (some h) (some c) o now =
          some ⟨.seek, h.trackId, targetClientPos h o now, now⟩) ∧
    (3000 ≤ (driftMs h c o now).natAbs →
        classifyDrift (driftMs h c o now) = .immediate ∧
        evaluate (some h) (some c) o now =
          some ⟨.seek, h.trackId, targetClientPos h o now, now⟩) := by
  refine ⟨?_, ?_, ?_⟩
  · intro hb
    simp [evaluate, htrack, hplay, classifyDrift, hb]
  · intro hb1 hb2
    have hn : ¬ (driftMs h c o now).natAbs < 500 := by omega
    exact ⟨by simp [classifyDrift, hn, hb2],
      by simp [evaluate, htrack, hplay, classifyDrift, hn, hb2]⟩
  · intro hb
    have hn1 : ¬ (driftMs h c o now).natAbs < 500 := by omega
    have hn2 : ¬ (driftMs h c o now).natAbs < 3000 := by omega
    exact ⟨by simp [classifyDrift, hn1, hn2],
      by simp [evaluate, htrack, hplay, classifyDrift, hn1, hn2]⟩

/-- Witness for C1 at concrete inputs: same track, both playing, drift
1000 ms, which falls in the gradual band and yields a seek to the target
client position. -/
theorem C1_drift_band_policy_witness :
    evaluate (some ⟨"A", 1000, true, 0⟩) (some ⟨"A", 2000, true, 0⟩) 0 0 =
      some ⟨.seek, "A", 1000, 0⟩ :=
  ((C1_drift_band_policy ⟨"A", 1000, true, 0⟩ ⟨"A", 2000, true, 0⟩ 0 0
      rfl rfl).2.1 (by decide) (by decide)).2

/-- C2: whenever the host and client snapshots carry different trackIds, the
evaluation emits a switch_track correction (never a seek) regardless of
offset, time, and drift magnitude, and the result does not depend on the
client's reported position: drift evaluation is skipped for that call. -/
theorem C2_track_mismatch_dominates (h c : PlaybackSnapshot) (o now : Int)
    (htrack : h.trackId ≠ c.trackId) :
    evaluate (some h) (some c) o now =
      some ⟨.switchTrack, h.trackId, targetClientPos h o now, now⟩ ∧
    (∀ corr : Correction, evaluate (some h) (some c) o now = some corr →
        corr.action = .switchTrack ∧ corr.action ≠ .seek) ∧
    (∀ p : Int,
        evaluate (some h)
            (some ⟨c.trackId, p, c.isPlaying, c.reportedAtMs⟩) o now =
          evaluate (some h) (some c) o now) := by
  have he : evaluate (some h) (some c) o now =
      some ⟨.switchTrack, h.trackId, targetClientPos h o now, now⟩ := by
    simp [evaluate, htrack]
  refine ⟨he, ?_, ?_⟩
  · intro corr hcorr
    rw [he] at hcorr
    injection hcorr with hcorr
    subst hcorr
    exact ⟨rfl, by simp⟩
  · intro p
    rw [he]
    simp [evaluate, htrack]

/-- Witness for C2 at concrete inputs: different tracks yield a switch_track
correction. -/
theorem C2_track_mismatch_dominates_witness :
    evaluate (some ⟨"A", 0, true, 0⟩) (some ⟨"B", 9999, true, 0⟩) 0 0 =
      some ⟨.switchTrack, "A", 0, 0⟩ :=
  (C2_track_mismatch_dominates ⟨"A", 0, true, 0⟩ ⟨"B", 9999, true, 0⟩ 0 0
      (by decide)).1

/-- C3: on the same track, a play-state mismatch between host and client
yields a play correction when the host is playing and a pause correction when
the host is paused, for every position of either peer, so regardless of the
position drift magnitude. -/
theorem C3_playstate_mismatch_overrides (h c : PlaybackSnapshot) (o now : Int)
    (htrack : h.trackId = c.trackId) (hplay : h.isPlaying ≠ c.isPlaying) :
    evaluate (some h) (some c) o now =
      some ⟨if h.isPlaying then .play else .pause, h.trackId,
            targetClientPos h o now, now⟩ := by
  simp [evaluate, htrack, hplay]

/-- Witness for C3 at concrete inputs: playing host, paused client, huge
position drift; the correction is play, matching the host. -/
theorem C3_playstate_mismatch_overrides_witness :
    evaluate (some ⟨"A", 0, true, 0⟩) (some ⟨"A", 100000, false, 0⟩) 0 0 =
      some ⟨.play, "A", 0, 0⟩ :=
  C3_playstate_mismatch_overrides ⟨"A", 0, true, 0⟩ ⟨"A", 100000, false, 0⟩ 0 0
    rfl (by decide)

/-- C4: for a paused host snapshot the evaluator never projects the host
position forward: expectedHostPos equals the reported positionMs for every
evaluation time now, regardless of the elapsed time since the report. -/
theorem C4_paused_host_not_projected (h : PlaybackSnapshot) (now : Int)
    (hpaused : h.isPlaying = false) :
    expectedHostPos h now = h.positionMs := by
  simp [expectedHostPos, hpaused]

/-- Witness for C4 at concrete inputs: a paused host reported at time 0 is
still expected at its reported position one hour later. -/
theorem C4_paused_host_not_projected_witness :
    expectedHostPos ⟨"A", 45000, false, 0⟩ 3600000 = 45000 :=
  C4_paused_host_not_projected ⟨"A", 45000, false, 0⟩ 3600000 rfl

/-- C5: the drift is computed as clientSnapshot.positionMs minus
(expectedHostPos plus clientOffsetMs), positive drift meaning the client is
ahead; and on the documented example (playing host at 45000 reported at T,
client at 45200 evaluated at T plus 5000, offset 0) the drift is -4800 and
the evaluation is an immediate seek to 50000. -/
theorem C5_drift_formula_and_example (T : Int) :
    (∀ (h c : PlaybackSnapshot) (o now : Int),
        driftMs h c o now = c.positionMs - (expectedHostPos h now + o)) ∧
    driftMs ⟨"A", 45000, true, T⟩ ⟨"A", 45200, true, T + 5000⟩ 0 (T + 5000) =
      -4800 ∧
    classifyDrift (driftMs ⟨"A", 45000, true, T⟩ ⟨"A", 45200, true, T + 5000⟩ 0
      (T + 5000)) = .immediate ∧
    evaluate (some ⟨"A", 45000, true, T⟩) (some ⟨"A", 45200, true, T + 5000⟩) 0
        (T + 5000) =
      some ⟨.seek, "A", 50000, T + 5000⟩ := by
  have htarget : targetClientPos ⟨"A", 45000, true, T⟩ 0 (T + 5000) = 50000 := by
    simp [targetClientPos, expectedHostPos]
  have hdrift : driftMs ⟨"A", 45000, true, T⟩ ⟨"A", 45200, true, T + 5000⟩ 0
      (T + 5000) = -4800 := by
    simp [driftMs, htarget]
  have hclass : classifyDrift (driftMs ⟨"A", 45000, true, T⟩
      ⟨"A", 45200, true, T + 5000⟩ 0 (T + 5000)) = .immediate := by
    rw [hdrift]
    decide
  refine ⟨fun h c o now => rfl, hdrift, hclass, ?_⟩
  simp only [evaluate, hclass, htarget]
  simp

/-- C6: the sync evaluation is a deterministic, side-effect-free function of
its four inputs: two calls with equal host snapshot, client snapshot, client
offset, and time produce equal outputs. -/
theorem C6_evaluate_deterministic (h₁ h₂ c₁ c₂ : Option PlaybackSnapshot)
    (o₁ o₂ t₁ t₂ : Int)
    (hh : h₁ = h₂) (hc : c₁ = c₂) (ho : o₁ = o₂) (ht : t₁ = t₂) :
    evaluate h₁ c₁ o₁ t₁ = evaluate h₂ c₂ o₂ t₂ := by
  subst hh
  subst hc
  subst ho
  subst ht
  rfl

/-- Witness for C6 at concrete inputs: two identical calls agree. -/
theorem C6_evaluate_deterministic_witness :
    evaluate (some ⟨"A", 100, true, 0⟩) (some ⟨"A", 900, true, 0⟩) 50 10 =
      evaluate (some ⟨"A", 100, true, 0⟩) (some ⟨"A", 900, true, 0⟩) 50 10 :=
  C6_evaluate_deterministic (some ⟨"A", 100, true, 0⟩) (some ⟨"A", 100, true, 0⟩)
    (some ⟨"A", 900, true, 0⟩) (some ⟨"A", 900, true, 0⟩) 50 50 10 10
    rfl rfl rfl rfl

/-- C7: after updateOffset with any requested value, including values outside
the range -5000 to 5000 ms, the stored clientOffsetMs lies within that range;
out-of-range values are clamped to the nearer bound (7000 stores as 5000,
-8000 stores as -5000), not rejected. -/
theorem C7_offset_always_clamped (s : Session) (offsetMs : Int) :
    -5000 ≤ (updateOffset s offsetMs).clientOffsetMs ∧
    (updateOffset s offsetMs).clientOffsetMs ≤ 5000 ∧
    (updateOffset s offsetMs).clientOffsetMs = clampOffset offsetMs ∧
    (updateOffset s 7000).clientOffsetMs = 5000 ∧
    (updateOffset s (-8000)).clientOffsetMs = -5000 := by
  refine ⟨le_max_left _ _, max_le (by norm_num) (min_le_left _ _), rfl, ?_, ?_⟩
  · simp [updateOffset, clampOffset]
  · simp [updateOffset, clampOffset]

/-- C8: for every offset already inside the range -5000 to 5000 ms,
updateOffset is idempotent: applying it twice leaves the session (and hence
the stored offset) exactly as applying it once, and the subsequent sync
evaluation returns the same Correction at every time. -/
theorem C8_updateOffset_idempotent (s : Session) (offsetMs : Int)
    (hlo : -5000 ≤ offsetMs) (hhi : offsetMs ≤ 5000) :
    updateOffset (updateOffset s offsetMs) offsetMs = updateOffset s offsetMs ∧
    (updateOffset (updateOffset s offsetMs) offsetMs).clientOffsetMs =
      (updateOffset s offsetMs).clientOffsetMs ∧
    (updateOffset s offsetMs).clientOffsetMs = offsetMs ∧
    ∀ now : Int,
      reevaluate (updateOffset (updateOffset s offsetMs) offsetMs) now =
        reevaluate (updateOffset s offsetMs) now := by
  have hcl : clampOffset offsetMs = offsetMs := by
    unfold clampOffset
    rw [min_eq_right hhi, max_eq_right hlo]
  exact ⟨rfl, rfl, hcl, fun now => rfl⟩

/-- Witness for C8 at a concrete in-range offset of 1200 ms. -/
theorem C8_updateOffset_idempotent_witness :
    updateOffset (updateOffset ⟨none, none, 0⟩ 1200) 1200 =
      updateOffset ⟨none, none, 0⟩ 1200 :=
  (C8_updateOffset_idempotent ⟨none, none, 0⟩ 1200 (by decide) (by decide)).1

/-- C9: a received sync_command whose action is switch_track, or any other
value outside play, pause, and seek, makes the prototype's handleSyncCommand
invoke no SpotifyService method at all: the call list is empty and the client
playback state is left unchanged. -/
theorem C9_unknown_action_dropped (command : SyncCommandMsg) (st : ClientPlayback)
    (hp : command.action ≠ "play") (hpa : command.action ≠ "pause")
    (hs : command.action ≠ "seek") :
    handleSyncCommand command = [] ∧
    applyCalls st (handleSyncCommand command) = st := by
  have he : handleSyncCommand command = [] := by
    simp [handleSyncCommand, hp, hpa, hs]
  refine ⟨he, ?_⟩
  rw [he]
  rfl

/-- Witness for C9 at a concrete switch_track command: no SpotifyService call
is made and a concrete client playback state is unchanged. -/
theorem C9_unknown_action_dropped_witness :
    handleSyncCommand ⟨"switch_track", "track:A", 0⟩ = [] ∧
    applyCalls ⟨"track:B", 123, true⟩
        (handleSyncCommand ⟨"switch_track", "track:A", 0⟩) =
      ⟨"track:B", 123, true⟩ :=
  C9_unknown_action_dropped ⟨"switch_track", "track:A", 0⟩ ⟨"track:B", 123, true⟩
    (by decide) (by decide) (by decide)

/-- C10: stopSync always leaves syncInterval null, so it is safe without a
prior startHostSync (a state with null syncInterval is left untouched), and
it is idempotent: a second consecutive call leaves the SyncService state
exactly as the first. -/
theorem C10_stopSync_idempotent (s : SyncServiceState) :
    (stopSync s).syncInterval = none ∧
    stopSync (stopSync s) = stopSync s := by
  cases hsi : s.syncInterval with
  | none =>
      have hid : stopSync s = s := by
        simp [stopSync, hsi]
      exact ⟨by rw [hid, hsi], by rw [hid, hid]⟩
  | some handle =>
      have hst : stopSync s = ⟨none, s.scheduled.filter (fun i => i != handle)⟩ := by
        simp [stopSync, hsi]
      exact ⟨by rw [hst], by rw [hst]; rfl⟩

end SpotifySync
